import Mathlib

/-!
Verification of the News-Research-Assistant pipeline core
(`src/8_News_Research_Assistant`): a shallow embedding of the coordinator
(`news_research_coordinator_light.py`), the agent base class
(`agents/base_agent.py`), the search, analysis and report agents, and the
fact-check agent (`files/fact_check_agent.py`), together with proofs of the
specified behavioural properties.

Modelling conventions:
* Python dictionaries and JSON values are modelled by the inductive `Json`
  (numbers as `ℚ`; CPython floats are not re-modelled bit-for-bit, no claim
  here depends on float rounding).
* Python exceptions are modelled by `PyError`; fallible code returns
  `Except PyError α`; `try/except` blocks become explicit `match`es.
* External library calls (`openai` chat completion, `json.loads`) are
  parameters ("oracles"): an LLM call outcome is an `Except PyError String`,
  `json.loads` is a `String → Option Json` (it raises only
  `json.JSONDecodeError` on string input, modelled as `none`).
* `asyncio.gather(*tasks)` returns one result per task, in task-creation
  order, after all tasks finish (documented asyncio semantics); its
  interleaving is modelled separately by a labelled transition system for
  the semaphore-bounded fact-check stage.
-/

/-- JSON values / Python dicts as passed between the agents. -/
inductive Json where
  | null : Json
  | bool (b : Bool) : Json
  | num (q : ℚ) : Json
  | str (s : String) : Json
  | arr (elems : List Json) : Json
  | obj (fields : List (String × Json)) : Json
deriving Repr, BEq, Inhabited

/-- Python exception classes that occur in the embedded code. -/
inductive PyError where
  | keyError (k : String) : PyError
  | valueError (msg : String) : PyError
  | typeError (msg : String) : PyError
  | attributeError (msg : String) : PyError
  | indexError : PyError
  | jsonDecodeError : PyError
  | transportError (msg : String) : PyError
deriving Repr, BEq, DecidableEq, Inhabited

/-- `try body except Exception: handler` for an exception-free result type. -/
def pyTry {α : Type} (body : Except PyError α) (handler : PyError → α) : α :=
  match body with
  | .ok a => a
  | .error e => handler e

/-- The whitespace class of Python's `str.strip` / regex `\s` (ASCII part). -/
def pyIsSpace (c : Char) : Bool :=
  c = ' ' || c = '\t' || c = '\n' || c = '\r' || c = '\x0b' || c = '\x0c'

/-- Python `str.strip()`: drop leading and trailing whitespace. -/
def pyStrip (s : String) : String :=
  String.mk (((s.data.dropWhile pyIsSpace).reverse.dropWhile pyIsSpace).reverse)

/-- One backtick triple. -/
def fenceBare : List Char := '`' :: '`' :: '`' :: []

/-- `re.sub(r'```json\s*', '', response)` on the character list, one
character at a time: after an occurrence of ```` ```json ```` the scanner
is in whitespace-skipping mode (`skipWs`), consuming the greedy `\s*` run;
scanning resumes after the removed whitespace, exactly as `re.sub` resumes
after the end of each non-overlapping match. -/
def removeJsonFencesAux (skipWs : Bool) : List Char → List Char
  | '`' :: '`' :: '`' :: 'j' :: 's' :: 'o' :: 'n' :: rest =>
    removeJsonFencesAux true rest
  | [] => []
  | c :: cs =>
    if skipWs && pyIsSpace c then removeJsonFencesAux true cs
    else c :: removeJsonFencesAux false cs

/-- `re.sub(r'```json\s*', '', response)`. -/
def removeJsonFences (cs : List Char) : List Char :=
  removeJsonFencesAux false cs

/-- `re.sub(r'```\s*$', '', response)` (no `re.MULTILINE`): the pattern
matches iff the string, after its maximal trailing-whitespace run, ends in
```` ``` ````; the match removes that fence and the trailing whitespace.
(The leftmost such match is exactly the last fence followed only by
whitespace, since a backtick is not whitespace.) -/
def removeTrailingFence (s : String) : String :=
  let rev := s.data.reverse
  let rest := rev.dropWhile pyIsSpace
  if fenceBare.reverse.isPrefixOf rest then
    String.mk ((rest.drop 3).reverse)
  else
    s

/-- `s.startswith(c)` for a single character. -/
def startsWithChar (s : String) (c : Char) : Bool :=
  match s.data with
  | [] => false
  | c0 :: _ => c0 == c

namespace BaseAgent

/-- `BaseAgent._clean_json_response`: strip markdown fences, trim
whitespace, and require the result to start with `\x7b` or `[`
(else `raise ValueError(...)`). -/
def clean_json_response (response : String) : Except PyError String :=
  let r1 := String.mk (removeJsonFences response.data)
  let r2 := removeTrailingFence r1
  let r3 := pyStrip r2
  if startsWithChar r3 '\x7b' || startsWithChar r3 '[' then
    .ok r3
  else
    .error (.valueError "Response is not a valid JSON object/array")

/-- `BaseAgent._parse_json_response`: try cleaning then `json.loads`
(`decode`); on any failure, return `default_value` if it is not `None`,
otherwise re-raise. -/
def parse_json_response (decode : String → Option Json) (response : String)
    (default_value : Option Json) : Except PyError Json :=
  match clean_json_response response with
  | .ok cleaned =>
    match decode cleaned with
    | some v => .ok v
    | none =>
      match default_value with
      | some d => .ok d
      | none => .error .jsonDecodeError
  | .error e =>
    match default_value with
    | some d => .ok d
    | none => .error e

end BaseAgent

/-! ## Python value semantics used by the agents -/

/-- `d.get(k, default)` — `AttributeError` when the receiver is not a dict. -/
def pyDictGet (d : Json) (k : String) (default : Json) : Except PyError Json :=
  match d with
  | .obj fs => .ok ((fs.lookup k).getD default)
  | _ => .error (.attributeError "object has no attribute get")

/-- `d[k]` with a string key — `KeyError` when missing, `TypeError` when the
receiver is not a dict. -/
def pyGetItem (d : Json) (k : String) : Except PyError Json :=
  match d with
  | .obj fs =>
    match fs.lookup k with
    | some v => .ok v
    | none => .error (.keyError k)
  | _ => .error (.typeError "value is not subscriptable by a string key")

/-- `for x in v` / `list.extend(v)`: lists yield elements, strings yield
one-character strings, dicts yield their keys; other values raise
`TypeError`. -/
def pyIterate : Json → Except PyError (List Json)
  | .arr xs => .ok xs
  | .str s => .ok (s.data.map (fun c => Json.str c.toString))
  | .obj fs => .ok (fs.map (fun kv => Json.str kv.1))
  | _ => .error (.typeError "object is not iterable")

/-- `len(v)` — `TypeError` on unsized values. -/
def pyLen : Json → Except PyError Nat
  | .arr xs => .ok xs.length
  | .str s => .ok s.length
  | .obj fs => .ok fs.length
  | _ => .error (.typeError "object has no len")

/-- Python list indexing `xs[k]`, including negative indices. -/
def pyIndex {α : Type} (xs : List α) (k : Int) : Option α :=
  if 0 ≤ k then xs.get? k.toNat
  else if 0 ≤ k + xs.length then xs.get? (k + xs.length).toNat
  else none

/-- Truncation of a rational toward zero, as `int(float)` does. -/
def ratTrunc (q : ℚ) : Int := q.num / (q.den : Int)

/-- Digits-only string to `Nat` (`none` when empty or non-digit). -/
def digitsToNat : List Char → Option Nat
  | [] => none
  | cs =>
    if cs.all Char.isDigit then
      some (cs.foldl (fun acc c => 10 * acc + (c.toNat - '0'.toNat)) 0)
    else none

/-- `int(s)` on a string: strip whitespace, optional sign, decimal digits.
(Underscore separators and non-decimal bases are not exercised here.) -/
def pyIntOfString (s : String) : Option Int :=
  let cs := (pyStrip s).data
  match cs with
  | '+' :: rest => (digitsToNat rest).map Int.ofNat
  | '-' :: rest => (digitsToNat rest).map (fun n => -(Int.ofNat n))
  | rest => (digitsToNat rest).map Int.ofNat

/-- `int(v)`: numbers truncate toward zero, booleans map to 0/1, strings
parse as decimal integers (`ValueError` otherwise), everything else is a
`TypeError`. -/
def pyInt : Json → Except PyError Int
  | .num q => .ok (ratTrunc q)
  | .bool b => .ok (if b then 1 else 0)
  | .str s =>
    match pyIntOfString s with
    | some n => .ok n
    | none => .error (.valueError "invalid literal for int")
  | _ => .error (.typeError "int argument must be a string or a number")

/-- `float(s)` on a string: optional sign, decimal digits with an optional
fractional part. (Exponent forms and specials are not exercised here.) -/
def pyFloatOfString (s : String) : Option ℚ :=
  let cs := (pyStrip s).data
  let signed : List Char → Option ℚ := fun body =>
    match body.span (fun c => c ≠ '.') with
    | (intPart, []) => (digitsToNat intPart).map (fun n => (n : ℚ))
    | (intPart, _dot :: fracPart) =>
      if intPart.isEmpty && fracPart.isEmpty then none
      else
        let ip := if intPart.isEmpty then some 0 else digitsToNat intPart
        let fp := if fracPart.isEmpty then some 0 else digitsToNat fracPart
        match ip, fp with
        | some i, some f => some ((i : ℚ) + (f : ℚ) / ((10 : ℚ) ^ fracPart.length))
        | _, _ => none
  match cs with
  | '+' :: rest => signed rest
  | '-' :: rest => (signed rest).map Neg.neg
  | rest => signed rest

/-- `float(v)`: numbers pass through, booleans map to 0/1, strings parse as
decimals (`ValueError` otherwise), everything else is a `TypeError`. -/
def pyFloat : Json → Except PyError ℚ
  | .num q => .ok q
  | .bool b => .ok (if b then 1 else 0)
  | .str s =>
    match pyFloatOfString s with
    | some q => .ok q
    | none => .error (.valueError "could not convert string to float")
  | _ => .error (.typeError "float argument must be a string or a number")

/-- `str(v)`. Only string payloads are inspected by any claim; the textual
repr of non-string values is abbreviated. -/
def pyStr : Json → String
  | .str s => s
  | .bool b => if b then "True" else "False"
  | .null => "None"
  | .num q => toString q
  | .arr _ => "[...]"
  | .obj _ => "\x7b...\x7d"

/-! ## Data model (`config.py`, normalized articles) -/

/-- `config.MAX_ARTICLES_PER_SEARCH`. -/
def MAX_ARTICLES_PER_SEARCH : Nat := 10

/-- `FactCheckAgent.max_concurrent` (`self.max_concurrent = 3`). -/
def max_concurrent : Nat := 3

/-- A normalized article as produced by `SearchAgent._fetch_articles`:
every field defaulted, never absent. -/
structure Article where
  title : String := ""
  description : String := ""
  url : String := ""
  sourceName : String := ""
  publishedAt : String := ""
  content : String := ""
deriving Repr, BEq, DecidableEq, Inhabited

/-- An article copy carrying the two keys attached by
`SearchAgent._rank_articles` (`relevance_score`, `ranking_explanation`). -/
structure RankedArticle where
  article : Article
  relevance_score : ℚ
  ranking_explanation : Json
deriving Repr, BEq, Inhabited

namespace SearchAgent

/-- The exception tuple `(ValueError, KeyError, IndexError)` caught by one
iteration of the ranked-article matching loop; any other exception
propagates to the enclosing `except Exception` of `_rank_articles`. -/
def caughtByRankLoop : PyError → Bool
  | .valueError _ => true
  | .keyError _ => true
  | .indexError => true
  | _ => false

/-- One iteration of the loop body in `SearchAgent._rank_articles`:
`article_id = int(ranked['id'])`; keep the article only when
`article_id < len(articles)`; attach the coerced score and the explanation.
`.ok none` is an iteration that appends nothing (id too large); errors are
the exceptions the body raises. -/
def rankEntryStep (articles : List Article) (ranked : Json) :
    Except PyError (Option RankedArticle) :=
  match pyGetItem ranked "id" with
  | .error e => .error e
  | .ok idJson =>
    match pyInt idJson with
    | .error e => .error e
    | .ok articleId =>
      if articleId < (articles.length : Int) then
        match pyIndex articles articleId with
        | some article =>
          match pyDictGet ranked "relevance_score" (Json.num 0) with
          | .error e => .error e
          | .ok scoreJson =>
            match pyFloat scoreJson with
            | .error e => .error e
            | .ok score =>
              match pyDictGet ranked "explanation" (Json.str "") with
              | .error e => .error e
              | .ok expl =>
                .ok (some { article := article, relevance_score := score,
                            ranking_explanation := expl })
        | none => .error .indexError
      else
        .ok none

/-- The full matching loop: `ValueError`/`KeyError`/`IndexError` skip the
entry and continue; other exceptions abort the whole ranking. -/
def matchRankedEntries (articles : List Article) :
    List Json → Except PyError (List RankedArticle)
  | [] => .ok []
  | e :: rest =>
    match rankEntryStep articles e with
    | .ok r? =>
      (matchRankedEntries articles rest).map (fun rs => r?.toList ++ rs)
    | .error err =>
      if caughtByRankLoop err then matchRankedEntries articles rest
      else .error err

/-- Stable insertion of a ranked article before the first element whose
score it meets or exceeds — the insertion step of a stable descending
sort. -/
def insertByScoreDesc (x : RankedArticle) :
    List RankedArticle → List RankedArticle
  | [] => [x]
  | y :: ys =>
    if y.relevance_score ≤ x.relevance_score then x :: y :: ys
    else y :: insertByScoreDesc x ys

/-- `ranked_articles.sort(key=..., reverse=True)`: Python's sort is stable;
any stable descending-by-score sort computes the same list, here insertion
sort. -/
def sortByScoreDesc (rs : List RankedArticle) : List RankedArticle :=
  rs.foldr insertByScoreDesc []

/-- Result of `_rank_articles`: either the relevance-ranked copies, or the
fallback `articles[:MAX_ARTICLES_PER_SEARCH]` in original provider order. -/
inductive RankOutcome where
  | ranked (rs : List RankedArticle) : RankOutcome
  | fallback (articles : List Article) : RankOutcome
deriving Repr, BEq, Inhabited

/-- `SearchAgent._rank_articles` from the parsed LLM response onward
(`parsed` is the value `_parse_json_response` produced, whose default is
`\x7b"ranked_articles": []\x7d`): iterate
`parsed_response.get('ranked_articles', [])`, match ids back to articles,
fall back to `articles[:MAX_ARTICLES_PER_SEARCH]` when nothing matched or
when an uncaught exception reaches the outer `except Exception`, otherwise
sort by descending relevance score. -/
def rank_articles_from_parsed (articles : List Article) (parsed : Json) :
    RankOutcome :=
  match pyDictGet parsed "ranked_articles" (Json.arr []) with
  | .error _ => .fallback (articles.take MAX_ARTICLES_PER_SEARCH)
  | .ok rankedVal =>
    match pyIterate rankedVal with
    | .error _ => .fallback (articles.take MAX_ARTICLES_PER_SEARCH)
    | .ok entries =>
      match matchRankedEntries articles entries with
      | .error _ => .fallback (articles.take MAX_ARTICLES_PER_SEARCH)
      | .ok rs =>
        if rs.isEmpty then .fallback (articles.take MAX_ARTICLES_PER_SEARCH)
        else .ranked (sortByScoreDesc rs)

end SearchAgent

/-! ## Analysis agent (`agents/analysis_agent.py`) -/

/-- The `results` dict built by `AnalysisAgent.process`: five accumulator
lists plus the `overall_analysis` entry added at the end (`Json.null`
before it is set). -/
structure AnalysisResults where
  summaries : List Json
  key_points : List Json
  sentiment : List Json
  topics : List Json
  biases : List Json
  overall_analysis : Json
deriving Repr, BEq, Inhabited

namespace AnalysisAgent

/-- The sentinel sentiment entry appended for a failed analysis. -/
def sentinelSentiment : Json :=
  .obj [("score", .num 0), ("explanation", .str "Analysis failed")]

/-- The sentinel bias entry appended for a failed analysis. -/
def sentinelBias : Json :=
  .obj [("detected", .bool false), ("explanation", .str "Analysis failed")]

/-- The `except` branch of the per-article loop in `AnalysisAgent.process`:
append one placeholder to each of the five lists. -/
def analysisSentinelAppend (r : AnalysisResults) : AnalysisResults :=
  { r with
    summaries := r.summaries ++ [.str "Analysis failed"]
    key_points := r.key_points ++ [.str "Analysis failed"]
    sentiment := r.sentiment ++ [sentinelSentiment]
    topics := r.topics ++ [.str "Unknown"]
    biases := r.biases ++ [sentinelBias] }

/-- The `default_analysis` dict of `AnalysisAgent._analyze_article`,
supplied to `_parse_json_response` as the default. -/
def default_analysis : Json := .obj
  [ ("summary", .str "Analysis failed")
  , ("key_points", .arr [.str "Analysis failed"])
  , ("sentiment", sentinelSentiment)
  , ("topics", .arr [.str "Unknown"])
  , ("bias", sentinelBias) ]

/-- `AnalysisAgent._get_default_overall_analysis`. -/
def default_overall_analysis : Json := .obj
  [ ("main_narrative", .str "Analysis failed")
  , ("common_themes", .arr [])
  , ("conflicting_viewpoints", .arr [])
  , ("overall_sentiment", .str "neutral")
  , ("potential_gaps", .arr [.str "Analysis failed to complete"]) ]

/-- `AnalysisAgent._analyze_article` given the outcome of its LLM call:
a transport failure is re-raised (`except: ... raise`); otherwise the
response is parsed with `default_analysis` as the default, so parse
failures yield the default rather than an exception. -/
def analyze_article (decode : String → Option Json)
    (callResult : Except PyError String) : Except PyError Json :=
  match callResult with
  | .error e => .error e
  | .ok resp => BaseAgent.parse_json_response decode resp (some default_analysis)

/-- One iteration of the per-article loop of `AnalysisAgent.process`,
statement by statement: each `results[...].append/extend` that has already
executed keeps its effect when a later subscript or `extend` raises, and
the `except` branch then appends the placeholders to the partially updated
lists. -/
def analysisArticleStep (r : AnalysisResults) (outcome : Except PyError Json) :
    AnalysisResults :=
  match outcome with
  | .error _ => analysisSentinelAppend r
  | .ok analysis =>
    match pyGetItem analysis "summary" with
    | .error _ => analysisSentinelAppend r
    | .ok summary =>
      let r1 := { r with summaries := r.summaries ++ [summary] }
      match pyGetItem analysis "key_points" with
      | .error _ => analysisSentinelAppend r1
      | .ok kpv =>
        match pyIterate kpv with
        | .error _ => analysisSentinelAppend r1
        | .ok kps =>
          let r2 := { r1 with key_points := r1.key_points ++ kps }
          match pyGetItem analysis "sentiment" with
          | .error _ => analysisSentinelAppend r2
          | .ok sent =>
            let r3 := { r2 with sentiment := r2.sentiment ++ [sent] }
            match pyGetItem analysis "topics" with
            | .error _ => analysisSentinelAppend r3
            | .ok tpv =>
              match pyIterate tpv with
              | .error _ => analysisSentinelAppend r3
              | .ok tps =>
                let r4 := { r3 with topics := r3.topics ++ tps }
                match pyGetItem analysis "bias" with
                | .error _ => analysisSentinelAppend r4
                | .ok b => { r4 with biases := r4.biases ++ [b] }

/-- The per-article loop of `AnalysisAgent.process`; the `i`-th article's
LLM call outcome is `oracle i`. -/
def analysisLoop (decode : String → Option Json)
    (oracle : Nat → Except PyError String) :
    Nat → List Article → AnalysisResults → AnalysisResults
  | _, [], r => r
  | i, _ :: rest, r =>
    analysisLoop decode oracle (i + 1) rest
      (analysisArticleStep r (analyze_article decode (oracle i)))

/-- `AnalysisAgent._perform_overall_analysis` given its call outcome. -/
def perform_overall_analysis (decode : String → Option Json)
    (callResult : Except PyError String) : Except PyError Json :=
  match callResult with
  | .error e => .error e
  | .ok resp =>
    BaseAgent.parse_json_response decode resp (some default_overall_analysis)

/-- `AnalysisAgent.process`: run the per-article loop over the empty
accumulators, then set `overall_analysis`, defaulting it when the overall
call raises. -/
def process (decode : String → Option Json)
    (oracle : Nat → Except PyError String)
    (overallCall : Except PyError String) (articles : List Article) :
    AnalysisResults :=
  let r := analysisLoop decode oracle 0 articles ⟨[], [], [], [], [], Json.null⟩
  { r with overall_analysis :=
      (pyTry (perform_overall_analysis decode overallCall)
        (fun _ => default_overall_analysis)) }

end AnalysisAgent

/-! ## Fact-check / verification agent (`files/fact_check_agent.py`) -/

/-- One entry of the list returned by `FactCheckAgent.process`. -/
structure FactCheckResult where
  article_url : String
  verification_results : Json
  article_data : Article
deriving Repr, BEq, Inhabited

namespace FactCheckAgent

/-- `FactCheckAgent._get_default_verification`. -/
def default_verification : Json := .obj
  [ ("verified_claims", .arr [])
  , ("unverified_claims", .arr [])
  , ("credibility_assessment", .obj
      [ ("source_credibility", .num 0)
      , ("evidence_quality", .num 0)
      , ("overall_reliability", .num 0) ])
  , ("verification_summary", .str "Verification failed") ]

/-- The "ensure all fields are present with proper types" block of
`FactCheckAgent._verify_article`: rebuild the result with `isinstance`
guards and `float` coercions; a failing coercion or a non-dict parse result
raises into the surrounding `except`. -/
def normalize_verification (parsed : Json) : Except PyError Json := do
  let vc ← pyDictGet parsed "verified_claims" Json.null
  let verifiedClaims := match vc with | .arr xs => Json.arr xs | _ => Json.arr []
  let uc ← pyDictGet parsed "unverified_claims" Json.null
  let unverifiedClaims := match uc with | .arr xs => Json.arr xs | _ => Json.arr []
  let ca ← pyDictGet parsed "credibility_assessment" Json.null
  let cred ← match ca with
    | .obj cfs => do
      let sc ← (pyDictGet (.obj cfs) "source_credibility" (Json.num 0)).bind pyFloat
      let evq ← (pyDictGet (.obj cfs) "evidence_quality" (Json.num 0)).bind pyFloat
      let orl ← (pyDictGet (.obj cfs) "overall_reliability" (Json.num 0)).bind pyFloat
      pure (Json.obj
        [ ("source_credibility", .num sc)
        , ("evidence_quality", .num evq)
        , ("overall_reliability", .num orl) ])
    | _ => pure (Json.obj
        [ ("source_credibility", .num 0)
        , ("evidence_quality", .num 0)
        , ("overall_reliability", .num 0) ])
  let vs ← pyDictGet parsed "verification_summary" (Json.str "")
  pure (Json.obj
    [ ("verified_claims", verifiedClaims)
    , ("unverified_claims", unverifiedClaims)
    , ("credibility_assessment", cred)
    , ("verification_summary", .str (pyStr vs)) ])

/-- `FactCheckAgent._verify_article` given the outcome of its LLM call:
parse with `default_verification` as the default, normalize, and replace
any escaping exception by `default_verification`. -/
def verify_article (decode : String → Option Json)
    (callResult : Except PyError String) : Json :=
  pyTry (do
    let resp ← callResult
    let parsed ← BaseAgent.parse_json_response decode resp
      (some default_verification)
    normalize_verification parsed)
    (fun _ => default_verification)

/-- The inner `process_article` coroutine of `FactCheckAgent.process`: on
success wrap the verification with the article's url and the original
article; the `except` branch substitutes `default_verification`, keeping
the same url and article reference. -/
def process_article (decode : String → Option Json) (article : Article)
    (callResult : Except PyError String) : FactCheckResult :=
  pyTry (do
    let verification := verify_article decode callResult
    pure { article_url := article.url
         , verification_results := verification
         , article_data := article })
    (fun _ =>
      { article_url := article.url
      , verification_results := default_verification
      , article_data := article })

/-- `asyncio.gather(*[process_article(a) for a in articles])`: one task per
article in list order; gather returns the results indexed by task-creation
order once every task has finished. The `i`-th task's LLM call outcome is
`oracle i`. -/
def processFrom (decode : String → Option Json)
    (oracle : Nat → Except PyError String) :
    Nat → List Article → List FactCheckResult
  | _, [] => []
  | i, a :: rest =>
    process_article decode a (oracle i) :: processFrom decode oracle (i + 1) rest

/-- `FactCheckAgent.process`. -/
def process (decode : String → Option Json)
    (oracle : Nat → Except PyError String) (articles : List Article) :
    List FactCheckResult :=
  processFrom decode oracle 0 articles

/-! ### Interleaving model of the semaphore-bounded stage

`process` launches one coroutine per article; each executes
`async with semaphore` (counter initialised to `max_concurrent = 3`):
the slot is acquired before the per-document verification call starts and
released when the `async with` block exits, whether the body returned
normally or raised (the `try/except` is inside the block). The transition
system below is the event-level view: `acquire` moves a pending task to
running when a slot is free, `finish` completes a running task (with either
outcome) and returns its slot. -/

/-- Scheduling phase of one per-article task. -/
inductive TaskPhase where
  | pending : TaskPhase
  | running : TaskPhase
  | done (ok : Bool) : TaskPhase
deriving Repr, BEq, DecidableEq, Inhabited

/-- Interleaving state: per-task phases plus the semaphore's free-slot
counter. -/
structure SemaphoreState where
  tasks : List TaskPhase
  avail : Nat
deriving Repr, BEq, DecidableEq, Inhabited

/-- Initial state of `FactCheckAgent.process` over `n` articles: all tasks
pending, `max_concurrent` slots free. -/
def semInit (n : Nat) : SemaphoreState :=
  ⟨List.replicate n .pending, max_concurrent⟩

/-- One scheduler step: a task may start only by taking a slot, and a
finishing task — successful or failed — always returns its slot. -/
inductive SemStep : SemaphoreState → SemaphoreState → Prop where
  | acquire (tasks : List TaskPhase) (avail : Nat) (i : Nat)
      (hp : tasks.get? i = some .pending) (ha : 0 < avail) :
      SemStep ⟨tasks, avail⟩ ⟨tasks.set i .running, avail - 1⟩
  | finish (tasks : List TaskPhase) (avail : Nat) (i : Nat) (ok : Bool)
      (hr : tasks.get? i = some .running) :
      SemStep ⟨tasks, avail⟩ ⟨tasks.set i (.done ok), avail + 1⟩

/-- States reachable during one run of the stage over `n` articles. -/
inductive SemReachable (n : Nat) : SemaphoreState → Prop where
  | init : SemReachable n (semInit n)
  | step {s s' : SemaphoreState} :
      SemReachable n s → SemStep s s' → SemReachable n s'

/-- Number of verification calls executing simultaneously. -/
def runningCount (s : SemaphoreState) : Nat :=
  s.tasks.countP (· == .running)

end FactCheckAgent

/-! ## Report / synthesis agent (`agents/report_agent.py`) -/

namespace ReportAgent

/-- The three LLM call outcomes of one `ReportAgent.process` run plus
`json.loads`. -/
structure Oracle where
  execCall : Except PyError String
  detailCall : Except PyError String
  recsCall : Except PyError String
  decode : String → Option Json

/-- Default of `_generate_executive_summary`'s outer `except`. -/
def execSummaryFailDefault : Json := .obj
  [ ("main_findings", .str "Summary generation failed")
  , ("key_trends", .arr [])
  , ("critical_insights", .arr [])
  , ("reliability_assessment", .str "") ]

/-- Default of `_generate_executive_summary`'s inner `except
json.JSONDecodeError`. -/
def execSummaryParseDefault : Json := .obj
  [ ("main_findings", .str "")
  , ("key_trends", .arr [])
  , ("critical_insights", .arr [])
  , ("reliability_assessment", .str "") ]

/-- Default detailed analysis (identical in the inner and outer `except`
branches of `_generate_detailed_analysis`). -/
def detailDefault : Json := .obj
  [ ("topic_analysis", .obj [])
  , ("source_analysis", .obj [])
  , ("narrative_analysis", .obj [])
  , ("fact_check_summary", .obj []) ]

/-- The failure skeleton returned by `ReportAgent.process`'s own `except`
branch. -/
def reportFailSkeleton : Json := .obj
  [ ("executive_summary", .obj
      [ ("main_findings", .str "Report generation failed")
      , ("key_trends", .arr [])
      , ("critical_insights", .arr [])
      , ("reliability_assessment", .str "") ])
  , ("detailed_analysis", .obj [])
  , ("metadata", .obj [])
  , ("recommendations", .arr []) ]

/-- `ReportAgent._generate_executive_summary`: the prompt construction's
dict accesses, the LLM call, then `json.loads` with the inner
`JSONDecodeError` default; the outer `except Exception` yields
`execSummaryFailDefault`. -/
def generate_executive_summary (o : Oracle) (data : Json) : Json :=
  pyTry (do
    let analysis ← pyDictGet data "analysis" (Json.obj [])
    let _topic ← pyDictGet data "topic" (Json.str "")
    let articles ← pyDictGet data "articles" (Json.arr [])
    let _n ← pyLen articles
    let _overall ← pyDictGet analysis "overall_analysis" (Json.obj [])
    let _kp ← pyDictGet analysis "key_points" (Json.arr [])
    let resp ← o.execCall
    pure (match o.decode resp with
          | some j => j
          | none => execSummaryParseDefault))
    (fun _ => execSummaryFailDefault)

/-- The fact-check extraction loop of `_generate_detailed_analysis`:
non-dict entries are skipped (`isinstance` guard); a non-dict
`verification_results`, a non-iterable claims value, or a failing `float`
coercion raises out of the loop into the outer `except`. -/
def extractFactCheckLoop :
    List Json → List Json × List Json × List Json →
    Except PyError (List Json × List Json × List Json)
  | [], acc => .ok acc
  | r :: rest, (vcs, ucs, creds) =>
    match r with
    | .obj fs => do
      let verification ← pyDictGet (.obj fs) "verification_results" (Json.obj [])
      let vc ← pyDictGet verification "verified_claims" (Json.arr [])
      let vcItems ← pyIterate vc
      let uc ← pyDictGet verification "unverified_claims" (Json.arr [])
      let ucItems ← pyIterate uc
      let cred ← pyDictGet verification "credibility_assessment" (Json.obj [])
      match cred with
      | .obj cfs => do
        let sc ← (pyDictGet (.obj cfs) "source_credibility" (Json.num 0)).bind pyFloat
        let evq ← (pyDictGet (.obj cfs) "evidence_quality" (Json.num 0)).bind pyFloat
        let orl ← (pyDictGet (.obj cfs) "overall_reliability" (Json.num 0)).bind pyFloat
        extractFactCheckLoop rest
          (vcs ++ vcItems, ucs ++ ucItems, creds ++ [Json.obj
            [ ("source_credibility", .num sc)
            , ("evidence_quality", .num evq)
            , ("overall_reliability", .num orl) ]])
      | _ => extractFactCheckLoop rest (vcs ++ vcItems, ucs ++ ucItems, creds)
    | _ => extractFactCheckLoop rest (vcs, ucs, creds)

/-- `ReportAgent._generate_detailed_analysis`. -/
def generate_detailed_analysis (o : Oracle) (data : Json) : Json :=
  pyTry (do
    let _analysis ← pyDictGet data "analysis" (Json.obj [])
    let fcr ← pyDictGet data "fact_check_results" (Json.arr [])
    let items ← pyIterate fcr
    let _extracted ← extractFactCheckLoop items ([], [], [])
    let resp ← o.detailCall
    pure (match o.decode resp with
          | some j => j
          | none => detailDefault))
    (fun _ => detailDefault)

/-- `ReportAgent._generate_recommendations` (the `data` argument is unused
by the source beyond prompt text): decode failure and the
`not isinstance(recommendations, list)` guard both yield `[]`, as does the
outer `except`. -/
def generate_recommendations (o : Oracle) (report : Json) : Json :=
  pyTry (do
    let _es ← pyDictGet report "executive_summary" (Json.obj [])
    let _da ← pyDictGet report "detailed_analysis" (Json.obj [])
    let resp ← o.recsCall
    pure (match o.decode resp with
          | some (Json.arr xs) => Json.arr xs
          | some _ => Json.arr []
          | none => Json.arr []))
    (fun _ => Json.arr [])

/-- Python dict item assignment `d[k] = v`. -/
def pySetItem (d : Json) (k : String) (v : Json) : Except PyError Json :=
  match d with
  | .obj fs =>
    if fs.any (fun kv => kv.1 == k) then
      .ok (.obj (fs.map (fun kv => if kv.1 == k then (k, v) else kv)))
    else
      .ok (.obj (fs ++ [(k, v)]))
  | _ => .error (.typeError "object does not support item assignment")

/-- The `try` body of `ReportAgent.process`: generate the summary and the
detailed sections, compile the report dict (whose metadata takes
`len(data.get('articles', []))` — a raising point), then attach the
recommendations. -/
def process_body (o : Oracle) (data : Json) : Except PyError Json := do
  let execSummary := generate_executive_summary o data
  let detailed := generate_detailed_analysis o data
  let articles ← pyDictGet data "articles" (Json.arr [])
  let n ← pyLen articles
  let ts ← pyDictGet data "timestamp" (Json.str "")
  let tp ← pyDictGet data "topic" (Json.str "")
  let report := Json.obj
    [ ("executive_summary", execSummary)
    , ("detailed_analysis", detailed)
    , ("metadata", Json.obj
        [ ("total_articles", .num n)
        , ("analysis_timestamp", ts)
        , ("topic", tp) ]) ]
  let recs := generate_recommendations o report
  pySetItem report "recommendations" recs

/-- `ReportAgent.process`: the body under `except Exception`, which
substitutes the fixed failure skeleton. -/
def process (o : Oracle) (data : Json) : Json :=
  pyTry (process_body o data) (fun _ => reportFailSkeleton)

end ReportAgent

/-! ## Pipeline coordinator (`news_research_coordinator_light.py`) -/

/-- The message paired with each Python exception (`str(e)`). -/
def PyError.message : PyError → String
  | .keyError k => k
  | .valueError m => m
  | .typeError m => m
  | .attributeError m => m
  | .indexError => "list index out of range"
  | .jsonDecodeError => "Expecting value"
  | .transportError m => m

namespace Coordinator

/-- The `report_data` dict assembled by `research_topic` before calling the
report agent. -/
structure ReportData where
  topic : String
  timestamp : String
  articles : List Article
  analysis : AnalysisResults
deriving Repr, BEq, Inhabited

/-- One awaited sub-agent (or renderer) invocation of `research_topic`,
carrying the argument it received. -/
inductive StageEvent where
  | search (topic : String) : StageEvent
  | analysis (articles : List Article) : StageEvent
  | factCheck (articles : List Article) : StageEvent
  | report (data : ReportData) : StageEvent
  | render (report : Json) : StageEvent
deriving Repr, BEq, Inhabited

/-- Is this invocation a verification (fact-check) stage call? -/
def StageEvent.isFactCheck : StageEvent → Bool
  | .factCheck _ => true
  | _ => false

/-- Outcomes of the awaited calls made by one `research_topic` run, plus
`datetime.now().isoformat()`. Rendering
(`_format_report_markdown` + `_save_report`, string building and file I/O)
is a single fallible step returning the saved filename. -/
structure CoordRun where
  searchOutcome : Except PyError (List Article)
  analysisOutcome : List Article → Except PyError AnalysisResults
  reportOutcome : ReportData → Except PyError Json
  renderOutcome : Json → Except PyError String
  now : String

/-- The dict returned when the search yields no articles. -/
def emptyResultReport (topic now : String) : Json := .obj
  [ ("error", .str "No articles found")
  , ("topic", .str topic)
  , ("timestamp", .str now)
  , ("executive_summary", .obj
      [("main_findings", .str "No articles found for the given topic")])
  , ("detailed_analysis", .obj [])
  , ("recommendations", .arr []) ]

/-- The dict built by `research_topic`'s `except Exception` branch. -/
def errorReport (topic now msg : String) : Json := .obj
  [ ("error", .str msg)
  , ("topic", .str topic)
  , ("timestamp", .str now)
  , ("executive_summary", .obj
      [("main_findings", .str ("Error occurred: " ++ msg))])
  , ("detailed_analysis", .obj [])
  , ("recommendations", .arr []) ]

/-- The `try` body of `research_topic`, with the trace of awaited stage
invocations: search, then — unless the article list is empty — analysis,
report generation, and rendering/saving, each stage receiving the previous
stage's output. -/
def research_topic_body (run : CoordRun) (topic : String) :
    Except PyError Json × List StageEvent :=
  match run.searchOutcome with
  | .error e => (.error e, [.search topic])
  | .ok articles =>
    if articles.isEmpty then
      (.ok (emptyResultReport topic run.now), [.search topic])
    else
      match run.analysisOutcome articles with
      | .error e => (.error e, [.search topic, .analysis articles])
      | .ok analysisResults =>
        let data : ReportData := ⟨topic, run.now, articles, analysisResults⟩
        match run.reportOutcome data with
        | .error e =>
          (.error e, [.search topic, .analysis articles, .report data])
        | .ok finalReport =>
          match run.renderOutcome finalReport with
          | .error e =>
            (.error e,
             [.search topic, .analysis articles, .report data,
              .render finalReport])
          | .ok _file =>
            (.ok finalReport,
             [.search topic, .analysis articles, .report data,
              .render finalReport])

/-- `NewsResearchCoordinatorLight.research_topic`: the body under
`except Exception`, which converts any escaping exception into the
error-shaped report. -/
def research_topic (run : CoordRun) (topic : String) :
    Json × List StageEvent :=
  match research_topic_body run topic with
  | (.ok r, tr) => (r, tr)
  | (.error e, tr) => (errorReport topic run.now e.message, tr)

end Coordinator

/-! ## Helper lemmas -/

theorem mem_insertByScoreDesc {x z : RankedArticle} {l : List RankedArticle} :
    z ∈ SearchAgent.insertByScoreDesc x l ↔ z = x ∨ z ∈ l := by
  induction l with
  | nil => simp [SearchAgent.insertByScoreDesc]
  | cons y ys ih =>
    rw [SearchAgent.insertByScoreDesc]
    by_cases hc : y.relevance_score ≤ x.relevance_score
    · simp [hc]
    · simp [hc, ih]
      tauto

theorem pairwise_insertByScoreDesc {x : RankedArticle} {l : List RankedArticle}
    (h : l.Pairwise (fun a b => b.relevance_score ≤ a.relevance_score)) :
    (SearchAgent.insertByScoreDesc x l).Pairwise
      (fun a b => b.relevance_score ≤ a.relevance_score) := by
  induction l with
  | nil => simp [SearchAgent.insertByScoreDesc]
  | cons y ys ih =>
    rw [SearchAgent.insertByScoreDesc]
    rcases List.pairwise_cons.mp h with ⟨hy, hys⟩
    by_cases hc : y.relevance_score ≤ x.relevance_score
    · rw [if_pos hc]
      refine List.pairwise_cons.mpr ⟨?_, h⟩
      intro z hz
      rcases List.mem_cons.mp hz with rfl | hz'
      · exact hc
      · exact le_trans (hy z hz') hc
    · rw [if_neg hc]
      refine List.pairwise_cons.mpr ⟨?_, ih hys⟩
      intro z hz
      rcases mem_insertByScoreDesc.mp hz with rfl | hz'
      · exact le_of_not_le hc
      · exact hy z hz'

theorem sortByScoreDesc_pairwise (l : List RankedArticle) :
    (SearchAgent.sortByScoreDesc l).Pairwise
      (fun a b => b.relevance_score ≤ a.relevance_score) := by
  induction l with
  | nil => simp [SearchAgent.sortByScoreDesc]
  | cons x xs ih => exact pairwise_insertByScoreDesc ih

/-- Per-article contribution appended to the five accumulator lists by one
loop iteration of `AnalysisAgent.process`. -/
structure AnalysisDelta where
  summaries : List Json
  key_points : List Json
  sentiment : List Json
  topics : List Json
  biases : List Json
deriving Repr, BEq, Inhabited

namespace AnalysisAgent

/-- Append a per-article contribution to the accumulators. -/
def appendD (r : AnalysisResults) (d : AnalysisDelta) : AnalysisResults :=
  { r with
    summaries := r.summaries ++ d.summaries
    key_points := r.key_points ++ d.key_points
    sentiment := r.sentiment ++ d.sentiment
    topics := r.topics ++ d.topics
    biases := r.biases ++ d.biases }

/-- Concatenation of contributions. -/
def deltaAppend (d1 d2 : AnalysisDelta) : AnalysisDelta :=
  ⟨d1.summaries ++ d2.summaries, d1.key_points ++ d2.key_points,
   d1.sentiment ++ d2.sentiment, d1.topics ++ d2.topics,
   d1.biases ++ d2.biases⟩

/-- The lists one loop iteration appends, computed by running the iteration
on empty accumulators. -/
def articleDelta (outcome : Except PyError Json) : AnalysisDelta :=
  let e := analysisArticleStep ⟨[], [], [], [], [], Json.null⟩ outcome
  ⟨e.summaries, e.key_points, e.sentiment, e.topics, e.biases⟩

theorem analysisArticleStep_append (r : AnalysisResults)
    (o : Except PyError Json) :
    analysisArticleStep r o = appendD r (articleDelta o) := by
  obtain ⟨s, k, se, t, b, ov⟩ := r
  cases o with
  | error e =>
    simp [analysisArticleStep, articleDelta, appendD, analysisSentinelAppend]
  | ok analysis =>
    simp only [analysisArticleStep, articleDelta]
    cases h1 : pyGetItem analysis "summary" with
    | error e1 => simp [h1, appendD, analysisSentinelAppend]
    | ok summary =>
      cases h2 : pyGetItem analysis "key_points" with
      | error e2 => simp [h1, h2, appendD, analysisSentinelAppend]
      | ok kpv =>
        cases h3 : pyIterate kpv with
        | error e3 => simp [h1, h2, h3, appendD, analysisSentinelAppend]
        | ok kps =>
          cases h4 : pyGetItem analysis "sentiment" with
          | error e4 => simp [h1, h2, h3, h4, appendD, analysisSentinelAppend]
          | ok sent =>
            cases h5 : pyGetItem analysis "topics" with
            | error e5 =>
              simp [h1, h2, h3, h4, h5, appendD, analysisSentinelAppend]
            | ok tpv =>
              cases h6 : pyIterate tpv with
              | error e6 =>
                simp [h1, h2, h3, h4, h5, h6, appendD, analysisSentinelAppend]
              | ok tps =>
                cases h7 : pyGetItem analysis "bias" with
                | error e7 =>
                  simp [h1, h2, h3, h4, h5, h6, h7, appendD,
                    analysisSentinelAppend]
                | ok bv =>
                  simp [h1, h2, h3, h4, h5, h6, h7, appendD,
                    analysisSentinelAppend]

/-- The concatenation of per-article contributions for the calls
`oracle i, oracle (i+1), …`, one per remaining article. -/
def deltasFrom (decode : String → Option Json)
    (oracle : Nat → Except PyError String) :
    Nat → List Article → AnalysisDelta
  | _, [] => ⟨[], [], [], [], []⟩
  | i, _ :: rest =>
    deltaAppend (articleDelta (analyze_article decode (oracle i)))
      (deltasFrom decode oracle (i + 1) rest)

theorem appendD_assoc (r : AnalysisResults) (d1 d2 : AnalysisDelta) :
    appendD (appendD r d1) d2 = appendD r (deltaAppend d1 d2) := by
  simp [appendD, deltaAppend]

theorem appendD_nil (r : AnalysisResults) :
    appendD r ⟨[], [], [], [], []⟩ = r := by
  simp [appendD]

theorem analysisLoop_append (decode : String → Option Json)
    (oracle : Nat → Except PyError String) (as : List Article) :
    ∀ (i : Nat) (r : AnalysisResults),
      analysisLoop decode oracle i as r =
        appendD r (deltasFrom decode oracle i as) := by
  induction as with
  | nil => intro i r; simp [analysisLoop, deltasFrom, appendD_nil]
  | cons a rest ih =>
    intro i r
    simp only [analysisLoop, deltasFrom]
    rw [ih (i + 1), analysisArticleStep_append, appendD_assoc]

/-- Did this call succeed? -/
def exOk {α : Type} : Except PyError α → Bool
  | .ok _ => true
  | .error _ => false

/-- Subscript then iterate, as `results[...].extend(analysis[k])` does. -/
def iterField (j : Json) (k : String) : Except PyError (List Json) :=
  (pyGetItem j k).bind pyIterate

/-- A parsed per-article analysis on which the extraction statements of
`AnalysisAgent.process` all succeed: the five keys are present and
`key_points`/`topics` are iterable. -/
def wellFormedAnalysis (j : Json) : Bool :=
  exOk (pyGetItem j "summary") && exOk (iterField j "key_points") &&
  exOk (pyGetItem j "sentiment") && exOk (iterField j "topics") &&
  exOk (pyGetItem j "bias")

/-- The summary entry contributed by the `i`-th article. -/
def docSummary (decode : String → Option Json)
    (oracle : Nat → Except PyError String) (i : Nat) : Json :=
  match analyze_article decode (oracle i) with
  | .error _ => .str "Analysis failed"
  | .ok j =>
    match pyGetItem j "summary" with
    | .ok s => s
    | .error _ => .str "Analysis failed"

/-- The sentiment entry contributed by the `i`-th article. -/
def docSentiment (decode : String → Option Json)
    (oracle : Nat → Except PyError String) (i : Nat) : Json :=
  match analyze_article decode (oracle i) with
  | .error _ => sentinelSentiment
  | .ok j =>
    match pyGetItem j "sentiment" with
    | .ok v => v
    | .error _ => sentinelSentiment

/-- The bias entry contributed by the `i`-th article. -/
def docBias (decode : String → Option Json)
    (oracle : Nat → Except PyError String) (i : Nat) : Json :=
  match analyze_article decode (oracle i) with
  | .error _ => sentinelBias
  | .ok j =>
    match pyGetItem j "bias" with
    | .ok v => v
    | .error _ => sentinelBias

/-- The key-point entries contributed by the `i`-th article. -/
def docKeyPoints (decode : String → Option Json)
    (oracle : Nat → Except PyError String) (i : Nat) : List Json :=
  match analyze_article decode (oracle i) with
  | .error _ => [.str "Analysis failed"]
  | .ok j =>
    match iterField j "key_points" with
    | .ok kps => kps
    | .error _ => [.str "Analysis failed"]

/-- The topic entries contributed by the `i`-th article. -/
def docTopics (decode : String → Option Json)
    (oracle : Nat → Except PyError String) (i : Nat) : List Json :=
  match analyze_article decode (oracle i) with
  | .error _ => [.str "Unknown"]
  | .ok j =>
    match iterField j "topics" with
    | .ok tps => tps
    | .error _ => [.str "Unknown"]

theorem articleDelta_wf (decode : String → Option Json)
    (oracle : Nat → Except PyError String) (i : Nat)
    (h : ∀ j, analyze_article decode (oracle i) = .ok j →
      wellFormedAnalysis j = true) :
    articleDelta (analyze_article decode (oracle i)) =
      ⟨[docSummary decode oracle i], docKeyPoints decode oracle i,
       [docSentiment decode oracle i], docTopics decode oracle i,
       [docBias decode oracle i]⟩ := by
  cases ho : analyze_article decode (oracle i) with
  | error e =>
    simp [articleDelta, analysisArticleStep, analysisSentinelAppend,
      docSummary, docKeyPoints, docSentiment, docTopics, docBias, ho]
  | ok j =>
    have hw := h j ho
    unfold wellFormedAnalysis at hw
    simp only [Bool.and_eq_true] at hw
    obtain ⟨⟨⟨⟨hs, hk⟩, hse⟩, ht⟩, hb⟩ := hw
    cases h1 : pyGetItem j "summary" with
    | error e1 => rw [h1] at hs; simp [exOk] at hs
    | ok s =>
      cases h2 : pyGetItem j "key_points" with
      | error e2 => simp [iterField, h2, exOk, Except.bind] at hk
      | ok kpv =>
        cases h3 : pyIterate kpv with
        | error e3 => simp [iterField, h2, h3, exOk, Except.bind] at hk
        | ok kps =>
          cases h4 : pyGetItem j "sentiment" with
          | error e4 => rw [h4] at hse; simp [exOk] at hse
          | ok sent =>
            cases h5 : pyGetItem j "topics" with
            | error e5 => simp [iterField, h5, exOk, Except.bind] at ht
            | ok tpv =>
              cases h6 : pyIterate tpv with
              | error e6 => simp [iterField, h5, h6, exOk, Except.bind] at ht
              | ok tps =>
                cases h7 : pyGetItem j "bias" with
                | error e7 => rw [h7] at hb; simp [exOk] at hb
                | ok bv =>
                  simp [articleDelta, analysisArticleStep, ho, h1, h2, h3,
                    h4, h5, h6, h7, docSummary, docKeyPoints, docSentiment,
                    docTopics, docBias, iterField, Except.bind]

theorem deltasFrom_wf (decode : String → Option Json)
    (oracle : Nat → Except PyError String)
    (hwf : ∀ k j, analyze_article decode (oracle k) = .ok j →
      wellFormedAnalysis j = true) :
    ∀ (as : List Article) (i : Nat),
      deltasFrom decode oracle i as =
        ⟨ (List.range as.length).map (fun k => docSummary decode oracle (i + k))
        , ((List.range as.length).map
            (fun k => docKeyPoints decode oracle (i + k))).flatten
        , (List.range as.length).map (fun k => docSentiment decode oracle (i + k))
        , ((List.range as.length).map
            (fun k => docTopics decode oracle (i + k))).flatten
        , (List.range as.length).map (fun k => docBias decode oracle (i + k)) ⟩ := by
  intro as
  induction as with
  | nil => intro i; simp [deltasFrom]
  | cons a rest ih =>
    intro i
    simp only [deltasFrom]
    rw [articleDelta_wf decode oracle i (hwf i), ih (i + 1)]
    have hS : (fun k => docSummary decode oracle (i + (k + 1))) =
        (fun k => docSummary decode oracle (i + 1 + k)) := by
      funext k; congr 1; omega
    have hK : (fun k => docKeyPoints decode oracle (i + (k + 1))) =
        (fun k => docKeyPoints decode oracle (i + 1 + k)) := by
      funext k; congr 1; omega
    have hSe : (fun k => docSentiment decode oracle (i + (k + 1))) =
        (fun k => docSentiment decode oracle (i + 1 + k)) := by
      funext k; congr 1; omega
    have hT : (fun k => docTopics decode oracle (i + (k + 1))) =
        (fun k => docTopics decode oracle (i + 1 + k)) := by
      funext k; congr 1; omega
    have hB : (fun k => docBias decode oracle (i + (k + 1))) =
        (fun k => docBias decode oracle (i + 1 + k)) := by
      funext k; congr 1; omega
    simp [deltaAppend, List.range_succ_eq_map, List.map_map, Function.comp,
      hS, hK, hSe, hT, hB]
    refine ⟨fun a _ => by congr 1; omega, ?_, fun a _ => by congr 1; omega,
      ?_, fun a _ => by congr 1; omega⟩ <;>
    · congr 1
      congr 1
      funext k
      simp only [Function.comp, Nat.succ_eq_add_one]
      congr 1
      omega

end AnalysisAgent

/-! ## Claims -/

/-- C2: for every raw LLM text and every caller-supplied non-None default,
if fence-stripping, the leading brace/bracket check, or strict JSON
decoding fails, then `_parse_json_response` returns exactly the supplied
default and does not raise; with no default supplied, the error
propagates. -/
theorem C2_parse_defaulting (decode : String → Option Json)
    (response : String) (dflt : Json)
    (hfail : ∀ cleaned, BaseAgent.clean_json_response response = .ok cleaned →
      decode cleaned = none) :
    BaseAgent.parse_json_response decode response (some dflt) = .ok dflt ∧
    ∃ e, BaseAgent.parse_json_response decode response none = .error e := by
  cases h : BaseAgent.clean_json_response response with
  | error e =>
    refine ⟨?_, e, ?_⟩ <;> simp only [BaseAgent.parse_json_response, h]
  | ok cleaned =>
    have hd : decode cleaned = none := hfail cleaned h
    refine ⟨?_, .jsonDecodeError, ?_⟩ <;>
      simp only [BaseAgent.parse_json_response, h, hd]

/-- C2 witness: a decoder that always fails, on a response that also fails
the brace check; with default `[]` the default is returned, without one an
error propagates. -/
theorem C2_parse_defaulting_witness :
    BaseAgent.parse_json_response (fun _ => none) "not json"
      (some (Json.arr [])) = .ok (Json.arr []) ∧
    ∃ e, BaseAgent.parse_json_response (fun _ => none) "not json" none =
      .error e :=
  C2_parse_defaulting (fun _ => none) "not json" (Json.arr []) (fun _ _ => rfl)

/-- C8: whenever the body of `research_topic` raises, the coordinator
returns the error-shaped report carrying the topic, the timestamp and the
error message (and `research_topic` is a total function — it never
propagates an exception). -/
theorem C8_coordinator_error_report (run : Coordinator.CoordRun)
    (topic : String) (e : PyError) (tr : List Coordinator.StageEvent)
    (h : Coordinator.research_topic_body run topic = (.error e, tr)) :
    Coordinator.research_topic run topic =
      (Coordinator.errorReport topic run.now e.message, tr) ∧
    pyGetItem (Coordinator.errorReport topic run.now e.message) "topic" =
      .ok (.str topic) ∧
    pyGetItem (Coordinator.errorReport topic run.now e.message) "timestamp" =
      .ok (.str run.now) ∧
    pyGetItem (Coordinator.errorReport topic run.now e.message) "error" =
      .ok (.str e.message) := by
  refine ⟨?_, rfl, rfl, rfl⟩
  unfold Coordinator.research_topic
  rw [h]

/-- A run whose very first stage (the search call) raises. -/
def cexRun8 : Coordinator.CoordRun :=
  { searchOutcome := .error (.transportError "boom")
  , analysisOutcome := fun _ => .ok default
  , reportOutcome := fun _ => .ok (Json.obj [])
  , renderOutcome := fun _ => .ok ""
  , now := "2026-10-12T00:00:00" }

/-- C8 witness: at the concrete failing run the coordinator returns the
error report with the topic, timestamp and message in place. -/
theorem C8_coordinator_error_report_witness :
    Coordinator.research_topic cexRun8 "quantum" =
      (Coordinator.errorReport "quantum" "2026-10-12T00:00:00" "boom",
       [Coordinator.StageEvent.search "quantum"]) ∧
    pyGetItem (Coordinator.errorReport "quantum" "2026-10-12T00:00:00" "boom")
      "topic" = .ok (.str "quantum") ∧
    pyGetItem (Coordinator.errorReport "quantum" "2026-10-12T00:00:00" "boom")
      "timestamp" = .ok (.str "2026-10-12T00:00:00") ∧
    pyGetItem (Coordinator.errorReport "quantum" "2026-10-12T00:00:00" "boom")
      "error" = .ok (.str "boom") :=
  C8_coordinator_error_report cexRun8 "quantum" (.transportError "boom")
    [Coordinator.StageEvent.search "quantum"] rfl

/-- The single article returned by the search in the C1 runs. -/
def cexArticleC1 : Article := { title := "a" }

/-- A fully successful run: search finds one article, analysis, report
generation and rendering all succeed. -/
def cexRunC1 : Coordinator.CoordRun :=
  { searchOutcome := .ok [cexArticleC1]
  , analysisOutcome := fun _ => .ok ⟨[], [], [], [], [], Json.null⟩
  , reportOutcome := fun _ => .ok (Json.obj [])
  , renderOutcome := fun _ => .ok "reports/f.md"
  , now := "now" }

/-- C1 counterexample: in a run whose document search returns a non-empty
list and every stage succeeds, the trace of `research_topic` contains no
verification (fact-check) invocation at all — the light coordinator calls
only search, analysis, and report before handing the report to the
renderer, so it does not invoke "all four agents". -/
theorem C1_counterexample :
    cexRunC1.searchOutcome = .ok [cexArticleC1] ∧
    ([cexArticleC1].isEmpty = false) ∧
    (Coordinator.research_topic cexRunC1 "ai").2 =
      [.search "ai", .analysis [cexArticleC1],
       .report ⟨"ai", "now", [cexArticleC1], ⟨[], [], [], [], [], Json.null⟩⟩,
       .render (Json.obj [])] ∧
    ((Coordinator.research_topic cexRunC1 "ai").2.countP
       Coordinator.StageEvent.isFactCheck = 0) :=
  ⟨rfl, rfl, rfl, rfl⟩

/-- C1 amended: for every run in which the search returns a non-empty list
and the remaining stages succeed, `research_topic` invokes exactly three
agents strictly in sequence — Document Source, then Per-Item Analysis,
then Synthesis — each receiving the previous stage's full output, and then
hands the final report to the rendering collaborator; no Verification
stage is invoked. -/
theorem C1_amended_three_stage_sequence (run : Coordinator.CoordRun)
    (topic : String) (articles : List Article) (ar : AnalysisResults)
    (rep : Json) (file : String)
    (hs : run.searchOutcome = .ok articles) (hne : articles ≠ [])
    (ha : run.analysisOutcome articles = .ok ar)
    (hr : run.reportOutcome ⟨topic, run.now, articles, ar⟩ = .ok rep)
    (hd : run.renderOutcome rep = .ok file) :
    Coordinator.research_topic run topic =
      (rep, [.search topic, .analysis articles,
             .report ⟨topic, run.now, articles, ar⟩, .render rep]) ∧
    ([Coordinator.StageEvent.search topic, .analysis articles,
      .report ⟨topic, run.now, articles, ar⟩, .render rep].countP
        Coordinator.StageEvent.isFactCheck = 0) := by
  have hne' : articles.isEmpty = false := by
    cases articles with
    | nil => exact absurd rfl hne
    | cons a as => rfl
  constructor
  · unfold Coordinator.research_topic Coordinator.research_topic_body
    simp only [hs, hne', ha, hr, hd, Bool.false_eq_true, if_false]
  · simp [Coordinator.StageEvent.isFactCheck, List.countP_cons]

/-- C1 amended witness: the concrete successful run. -/
theorem C1_amended_three_stage_sequence_witness :
    Coordinator.research_topic cexRunC1 "ai" =
      (Json.obj [], [.search "ai", .analysis [cexArticleC1],
        .report ⟨"ai", "now", [cexArticleC1], ⟨[], [], [], [], [], Json.null⟩⟩,
        .render (Json.obj [])]) ∧
    ([Coordinator.StageEvent.search "ai", .analysis [cexArticleC1],
      .report ⟨"ai", "now", [cexArticleC1], ⟨[], [], [], [], [], Json.null⟩⟩,
      .render (Json.obj [])].countP Coordinator.StageEvent.isFactCheck = 0) :=
  C1_amended_three_stage_sequence cexRunC1 "ai" [cexArticleC1]
    ⟨[], [], [], [], [], Json.null⟩ (Json.obj []) "reports/f.md"
    rfl (by simp) rfl rfl rfl

/-- The three documents of the ranking-stability scenario. -/
def cexA0 : Article := { title := "a0" }

/-- Second document. -/
def cexA1 : Article := { title := "a1" }

/-- Third document. -/
def cexA2 : Article := { title := "a2" }

/-- One `ranked_articles` entry as returned by the ranking LLM call. -/
def mkRankedEntry (i : ℚ) (sc : ℚ) (ex : String) : Json :=
  .obj [("id", .num i), ("relevance_score", .num sc), ("explanation", .str ex)]

/-- The score 0.9, in reduced form so that scores compute definitionally. -/
def q09 : ℚ := ⟨9, 10, by norm_num, by norm_num⟩

/-- The score 0.8. -/
def q08 : ℚ := ⟨4, 5, by norm_num, by norm_num⟩

/-- The score 0.7. -/
def q07 : ℚ := ⟨7, 10, by norm_num, by norm_num⟩

/-- The score 0.6. -/
def q06 : ℚ := ⟨3, 5, by norm_num, by norm_num⟩

/-- The parsed ranking response with ids `[2, 0, 5, 0]` over 3 documents. -/
def cexParsed3 : Json :=
  .obj [("ranked_articles", .arr
    [ mkRankedEntry 2 q09 "x2"
    , mkRankedEntry 0 q08 "x0"
    , mkRankedEntry 5 q07 "x5"
    , mkRankedEntry 0 q06 "x0b" ])]

/-- C3 counterexample: for ranked ids `[2, 0, 5, 0]` over 3 documents the
matching loop keeps **two** results for id `0` (duplicates are not
skipped), not exactly one as claimed; id `5` is dropped. -/
theorem C3_counterexample :
    SearchAgent.rank_articles_from_parsed [cexA0, cexA1, cexA2] cexParsed3 =
      .ranked
        [ ⟨cexA2, q09, .str "x2"⟩
        , ⟨cexA0, q08, .str "x0"⟩
        , ⟨cexA0, q06, .str "x0b"⟩ ] ∧
    ((match SearchAgent.rank_articles_from_parsed [cexA0, cexA1, cexA2]
        cexParsed3 with
      | .ranked rs => rs.countP (fun r => r.article == cexA0)
      | .fallback _ => 0) = 2) :=
  ⟨rfl, rfl⟩

/-- A ranked entry whose id is the non-numeric string `"abc"`. -/
def cexEntryBadId : Json :=
  .obj [ ("id", .str "abc"), ("relevance_score", .num q08)
       , ("explanation", .str "bad") ]

/-- The rational `-1`, in reduced form. -/
def qNeg1 : ℚ := ⟨-1, 1, by norm_num, by norm_num⟩

/-- A ranked entry with the negative id `-1`. -/
def cexEntryNegId : Json :=
  .obj [ ("id", .num qNeg1), ("relevance_score", .num q07)
       , ("explanation", .str "neg") ]

/-- C3 amended: in the ranked-id matching loop, an entry whose id key is
missing, whose id is a non-numeric string, or whose negative id lies below
`-N` raises `KeyError`/`ValueError`/`IndexError`, which the loop catches —
that entry is skipped individually without aborting the batch; an entry
whose non-negative id is `≥ N` is skipped silently; a negative id with
`-N ≤ id < 0` is **not** skipped — Python indexing resolves it to
`documents[N + id]`; duplicate ids are **not** deduplicated — each
resolvable occurrence contributes its own result, independent of the other
entries; for ranked ids `[2, 0, 5, 0]` over 3 documents, two results are
kept for id `0` and id `5` is dropped; surviving results are ordered by
descending `relevance_score` (every ranked output of
`rank_articles_from_parsed` is so ordered). -/
theorem C3_ranking_resolution :
    (∀ (articles : List Article) (parsed : Json) (rs : List RankedArticle),
        SearchAgent.rank_articles_from_parsed articles parsed = .ranked rs →
        rs.Pairwise (fun a b => b.relevance_score ≤ a.relevance_score)) ∧
    (∀ (articles : List Article) (e : Json) (rest : List Json)
        (err : PyError),
        SearchAgent.rankEntryStep articles e = .error err →
        SearchAgent.caughtByRankLoop err = true →
        SearchAgent.matchRankedEntries articles (e :: rest) =
          SearchAgent.matchRankedEntries articles rest) ∧
    (∀ (articles : List Article) (e : Json) (rest : List Json),
        SearchAgent.rankEntryStep articles e = .ok none →
        SearchAgent.matchRankedEntries articles (e :: rest) =
          SearchAgent.matchRankedEntries articles rest) ∧
    (∀ (articles : List Article) (e : Json) (rest : List Json)
        (r : RankedArticle),
        SearchAgent.rankEntryStep articles e = .ok (some r) →
        SearchAgent.matchRankedEntries articles (e :: rest) =
          (SearchAgent.matchRankedEntries articles rest).map
            (fun rs => r :: rs)) ∧
    (∀ (articles : List Article) (ranked idJson : Json) (n : Int),
        pyGetItem ranked "id" = .ok idJson → pyInt idJson = .ok n →
        (articles.length : Int) ≤ n →
        SearchAgent.rankEntryStep articles ranked = .ok none) ∧
    (∀ (articles : List Article) (ranked : Json) (s : String),
        pyGetItem ranked "id" = .ok (.str s) → pyIntOfString s = none →
        SearchAgent.rankEntryStep articles ranked =
          .error (.valueError "invalid literal for int") ∧
        SearchAgent.caughtByRankLoop (.valueError "invalid literal for int") =
          true) ∧
    (∀ (articles : List Article) (fields : List (String × Json)),
        fields.lookup "id" = (none : Option Json) →
        SearchAgent.rankEntryStep articles (.obj fields) =
          .error (.keyError "id") ∧
        SearchAgent.caughtByRankLoop (.keyError "id") = true) ∧
    (∀ (articles : List Article) (ranked idJson : Json) (n : Int)
        (a : Article) (sv : Json) (score : ℚ) (ev : Json),
        pyGetItem ranked "id" = .ok idJson → pyInt idJson = .ok n →
        n < 0 → pyIndex articles n = some a →
        pyDictGet ranked "relevance_score" (Json.num 0) = .ok sv →
        pyFloat sv = .ok score →
        pyDictGet ranked "explanation" (Json.str "") = .ok ev →
        SearchAgent.rankEntryStep articles ranked =
          .ok (some ⟨a, score, ev⟩)) ∧
    (∀ (articles : List Article) (ranked idJson : Json) (n : Int),
        pyGetItem ranked "id" = .ok idJson → pyInt idJson = .ok n →
        n + (articles.length : Int) < 0 →
        SearchAgent.rankEntryStep articles ranked = .error .indexError ∧
        SearchAgent.caughtByRankLoop .indexError = true) ∧
    SearchAgent.matchRankedEntries [cexA0, cexA1, cexA2]
      [ mkRankedEntry 2 q09 "x2", mkRankedEntry 0 q08 "x0"
      , mkRankedEntry 5 q07 "x5", mkRankedEntry 0 q06 "x0b" ] =
      .ok [ ⟨cexA2, q09, .str "x2"⟩, ⟨cexA0, q08, .str "x0"⟩
          , ⟨cexA0, q06, .str "x0b"⟩ ] ∧
    SearchAgent.matchRankedEntries [cexA0, cexA1, cexA2]
      [cexEntryBadId, cexEntryNegId] =
      .ok [ ⟨cexA2, q07, .str "neg"⟩ ] ∧
    SearchAgent.rank_articles_from_parsed [cexA0, cexA1, cexA2] cexParsed3 =
      .ranked
        [ ⟨cexA2, q09, .str "x2"⟩
        , ⟨cexA0, q08, .str "x0"⟩
        , ⟨cexA0, q06, .str "x0b"⟩ ] := by
  refine ⟨?_, ?_, ?_, ?_, ?_, ?_, ?_, ?_, ?_, rfl, rfl, rfl⟩
  · intro articles parsed rs h
    unfold SearchAgent.rank_articles_from_parsed at h
    cases h1 : pyDictGet parsed "ranked_articles" (Json.arr []) with
    | error e1 => simp only [h1] at h; exact absurd h (by simp)
    | ok rankedVal =>
      simp only [h1] at h
      cases h2 : pyIterate rankedVal with
      | error e2 => simp only [h2] at h; exact absurd h (by simp)
      | ok entries =>
        simp only [h2] at h
        cases h3 : SearchAgent.matchRankedEntries articles entries with
        | error e3 => simp only [h3] at h; exact absurd h (by simp)
        | ok ms =>
          simp only [h3] at h
          by_cases h4 : ms.isEmpty
          · rw [if_pos h4] at h
            exact absurd h (by simp)
          · rw [if_neg h4] at h
            have hms : SearchAgent.sortByScoreDesc ms = rs := by
              injection h
            rw [← hms]
            exact sortByScoreDesc_pairwise ms
  · intro articles e rest err h hc
    simp [SearchAgent.matchRankedEntries, h, hc]
  · intro articles e rest h
    simp only [SearchAgent.matchRankedEntries, h]
    cases SearchAgent.matchRankedEntries articles rest <;>
      simp [Except.map]
  · intro articles e rest r h
    simp only [SearchAgent.matchRankedEntries, h]
    cases SearchAgent.matchRankedEntries articles rest <;>
      simp [Except.map]
  · intro articles ranked idJson n h1 h2 h3
    simp only [SearchAgent.rankEntryStep, h1, h2]
    rw [if_neg (not_lt.mpr h3)]
  · intro articles ranked s h1 h2
    refine ⟨?_, rfl⟩
    simp [SearchAgent.rankEntryStep, h1, pyInt, h2]
  · intro articles fields h
    refine ⟨?_, rfl⟩
    simp [SearchAgent.rankEntryStep, pyGetItem, h]
  · intro articles ranked idJson n a sv score ev h1 h2 hneg h4 h5 h6 h7
    have hlt : n < (articles.length : Int) := by omega
    simp only [SearchAgent.rankEntryStep, h1, h2]
    rw [if_pos hlt]
    simp only [h4, h5, h6, h7]
  · intro articles ranked idJson n h1 h2 h3
    have hlt : n < (articles.length : Int) := by omega
    have hidx : pyIndex articles n = none := by
      unfold pyIndex
      rw [if_neg (by omega), if_neg (by omega)]
    refine ⟨?_, rfl⟩
    simp only [SearchAgent.rankEntryStep, h1, h2]
    rw [if_pos hlt]
    simp only [hidx]

/-- Characterization of the Analysis Agent's five output lists under the
well-formedness proviso — shared by the C4 and C5 developments. -/
theorem analysis_process_lists (decode : String → Option Json)
    (oracle : Nat → Except PyError String)
    (overallCall : Except PyError String) (articles : List Article)
    (hwf : ∀ k j, AnalysisAgent.analyze_article decode (oracle k) = .ok j →
      AnalysisAgent.wellFormedAnalysis j = true) :
    (AnalysisAgent.process decode oracle overallCall articles).summaries =
      (List.range articles.length).map
        (fun k => AnalysisAgent.docSummary decode oracle k) ∧
    (AnalysisAgent.process decode oracle overallCall articles).sentiment =
      (List.range articles.length).map
        (fun k => AnalysisAgent.docSentiment decode oracle k) ∧
    (AnalysisAgent.process decode oracle overallCall articles).biases =
      (List.range articles.length).map
        (fun k => AnalysisAgent.docBias decode oracle k) ∧
    (AnalysisAgent.process decode oracle overallCall articles).key_points =
      ((List.range articles.length).map
        (fun k => AnalysisAgent.docKeyPoints decode oracle k)).flatten ∧
    (AnalysisAgent.process decode oracle overallCall articles).topics =
      ((List.range articles.length).map
        (fun k => AnalysisAgent.docTopics decode oracle k)).flatten := by
  unfold AnalysisAgent.process
  rw [AnalysisAgent.analysisLoop_append,
    AnalysisAgent.deltasFrom_wf decode oracle hwf articles 0]
  simp [AnalysisAgent.appendD]

/-- C4 counterexample: with a single document whose per-document LLM call
succeeds but whose parsed JSON contains only the `summary` key, the
extraction appends the real summary, then raises `KeyError` at
`key_points` and appends the placeholder row as well: `summaries` has
length 2 for 1 input document, so the arrays are not length-N aligned as
claimed. -/
theorem C4_counterexample :
    ([({ title := "t" } : Article)].length = 1) ∧
    (AnalysisAgent.process (fun _ => some (.obj [("summary", .str "s")]))
        (fun _ => .ok "\x7b\x7d") (.ok "x")
        [{ title := "t" }]).summaries.length = 2 ∧
    (AnalysisAgent.process (fun _ => some (.obj [("summary", .str "s")]))
        (fun _ => .ok "\x7b\x7d") (.ok "x")
        [{ title := "t" }]).summaries =
      [.str "s", .str "Analysis failed"] :=
  ⟨rfl, rfl, rfl⟩

/-- C4 amended: provided every successfully parsed per-document analysis is
a JSON object with the five expected keys (and iterable
`key_points`/`topics`), the `summaries`, `sentiment` and `biases` arrays
each have length exactly N and are position-aligned with the input; a
document whose LLM call fails holds the sentinel "Analysis failed" summary
and the sentinel sentiment, whose score is 0. -/
theorem C4_analysis_alignment (decode : String → Option Json)
    (oracle : Nat → Except PyError String)
    (overallCall : Except PyError String) (articles : List Article)
    (hwf : ∀ k j, AnalysisAgent.analyze_article decode (oracle k) = .ok j →
      AnalysisAgent.wellFormedAnalysis j = true) :
    (AnalysisAgent.process decode oracle overallCall articles).summaries.length =
      articles.length ∧
    (AnalysisAgent.process decode oracle overallCall articles).sentiment.length =
      articles.length ∧
    (AnalysisAgent.process decode oracle overallCall articles).biases.length =
      articles.length ∧
    (∀ k e, oracle k = .error e → k < articles.length →
      (AnalysisAgent.process decode oracle overallCall articles).summaries.get? k =
        some (.str "Analysis failed") ∧
      (AnalysisAgent.process decode oracle overallCall articles).sentiment.get? k =
        some AnalysisAgent.sentinelSentiment) ∧
    pyGetItem AnalysisAgent.sentinelSentiment "score" = .ok (.num 0) := by
  obtain ⟨hs, hse, hb, _hk, _ht⟩ :=
    analysis_process_lists decode oracle overallCall articles hwf
  refine ⟨by rw [hs]; simp, by rw [hse]; simp, by rw [hb]; simp, ?_, rfl⟩
  intro k e hok hlt
  constructor
  · rw [hs, List.get?_map, List.get?_range hlt]
    simp [AnalysisAgent.docSummary, AnalysisAgent.analyze_article, hok]
  · rw [hse, List.get?_map, List.get?_range hlt]
    simp [AnalysisAgent.docSentiment, AnalysisAgent.analyze_article, hok]

/-- A complete parsed analysis carrying two key points. -/
def wfTwoKeyPoints : Json := .obj
  [ ("summary", .str "s")
  , ("key_points", .arr [.str "p1", .str "p2"])
  , ("sentiment", .obj [("score", .num 1), ("explanation", .str "e")])
  , ("topics", .arr [.str "to"])
  , ("bias", .obj [("detected", .bool false), ("explanation", .str "")]) ]

/-- A decoder returning the complete two-key-point analysis. -/
def cexDecodeWF : String → Option Json := fun _ => some wfTwoKeyPoints

/-- LLM call outcomes: document 0 succeeds, every later document's call
fails with a transport error. -/
def cexOracleFail1 : Nat → Except PyError String :=
  fun i => if i = 0 then .ok "\x7b\x7d" else .error (.transportError "x")

theorem cexOracleFail1_wf :
    ∀ k j, AnalysisAgent.analyze_article cexDecodeWF (cexOracleFail1 k) = .ok j →
      AnalysisAgent.wellFormedAnalysis j = true := by
  intro k j h
  cases k with
  | zero =>
    have : j = wfTwoKeyPoints := by
      have h' : Except.ok wfTwoKeyPoints = (Except.ok j : Except PyError Json) := h
      injection h' with h''
      exact h''.symm
    subst this
    decide
  | succ n => exact absurd h (by simp [AnalysisAgent.analyze_article, cexOracleFail1])

/-- C4 amended witness: two documents, the second document's call failing;
all three arrays have length 2 and index 1 holds the sentinels. -/
theorem C4_analysis_alignment_witness :
    (AnalysisAgent.process cexDecodeWF cexOracleFail1 (.ok "x")
      [{ title := "t" }, { title := "u" }]).summaries.length = 2 ∧
    (AnalysisAgent.process cexDecodeWF cexOracleFail1 (.ok "x")
      [{ title := "t" }, { title := "u" }]).sentiment.length = 2 ∧
    (AnalysisAgent.process cexDecodeWF cexOracleFail1 (.ok "x")
      [{ title := "t" }, { title := "u" }]).summaries.get? 1 =
      some (.str "Analysis failed") ∧
    (AnalysisAgent.process cexDecodeWF cexOracleFail1 (.ok "x")
      [{ title := "t" }, { title := "u" }]).sentiment.get? 1 =
      some AnalysisAgent.sentinelSentiment ∧
    pyGetItem AnalysisAgent.sentinelSentiment "score" = .ok (.num 0) := by
  have h := C4_analysis_alignment cexDecodeWF cexOracleFail1 (.ok "x")
    [{ title := "t" }, { title := "u" }] cexOracleFail1_wf
  have h1 := h.2.2.2.1 1 (.transportError "x") rfl (by decide)
  exact ⟨h.1, h.2.1, h1.1, h1.2, h.2.2.2.2⟩

/-- C5 counterexample: one document whose (successful, complete) analysis
carries two key points: the output `key_points` array has length 2 for one
input document — `key_points` (and `topics`) are flattened across
documents, not one-entry-per-document as claimed. -/
theorem C5_counterexample :
    ([({ title := "t" } : Article)].length = 1) ∧
    (AnalysisAgent.process cexDecodeWF (fun _ => .ok "\x7b\x7d") (.ok "x")
      [{ title := "t" }]).key_points.length = 2 ∧
    (AnalysisAgent.process cexDecodeWF (fun _ => .ok "\x7b\x7d") (.ok "x")
      [{ title := "t" }]).key_points = [.str "p1", .str "p2"] :=
  ⟨rfl, rfl, rfl⟩

/-- C5 amended: under the same well-formedness proviso as C4, `summaries`,
`sentiment` and `biases` are positionally aligned with the input order
(entry k comes from document k, a failed document contributing its
sentinel rather than being omitted), while `key_points` and `topics` are
the concatenation of the per-document contributions in document order, not
one entry per document. -/
theorem C5_output_array_shape (decode : String → Option Json)
    (oracle : Nat → Except PyError String)
    (overallCall : Except PyError String) (articles : List Article)
    (hwf : ∀ k j, AnalysisAgent.analyze_article decode (oracle k) = .ok j →
      AnalysisAgent.wellFormedAnalysis j = true) :
    (AnalysisAgent.process decode oracle overallCall articles).summaries =
      (List.range articles.length).map
        (fun k => AnalysisAgent.docSummary decode oracle k) ∧
    (AnalysisAgent.process decode oracle overallCall articles).sentiment =
      (List.range articles.length).map
        (fun k => AnalysisAgent.docSentiment decode oracle k) ∧
    (AnalysisAgent.process decode oracle overallCall articles).biases =
      (List.range articles.length).map
        (fun k => AnalysisAgent.docBias decode oracle k) ∧
    (AnalysisAgent.process decode oracle overallCall articles).key_points =
      ((List.range articles.length).map
        (fun k => AnalysisAgent.docKeyPoints decode oracle k)).flatten ∧
    (AnalysisAgent.process decode oracle overallCall articles).topics =
      ((List.range articles.length).map
        (fun k => AnalysisAgent.docTopics decode oracle k)).flatten :=
  analysis_process_lists decode oracle overallCall articles hwf

/-- C5 amended witness: the concrete two-document run. -/
theorem C5_output_array_shape_witness :
    (AnalysisAgent.process cexDecodeWF cexOracleFail1 (.ok "x")
      [{ title := "t" }, { title := "u" }]).summaries =
      (List.range 2).map
        (fun k => AnalysisAgent.docSummary cexDecodeWF cexOracleFail1 k) ∧
    (AnalysisAgent.process cexDecodeWF cexOracleFail1 (.ok "x")
      [{ title := "t" }, { title := "u" }]).key_points =
      ((List.range 2).map
        (fun k => AnalysisAgent.docKeyPoints cexDecodeWF cexOracleFail1 k)).flatten := by
  have h := C5_output_array_shape cexDecodeWF cexOracleFail1 (.ok "x")
    [{ title := "t" }, { title := "u" }] cexOracleFail1_wf
  exact ⟨h.1, h.2.2.2.1⟩

/-- C3 amended witness: concrete instantiations of the amended theorem —
the sorted concrete output for ids `[2, 0, 5, 0]`, the overlarge id `5`
skipped silently, the non-numeric id `"abc"` raising a caught
`ValueError`, and the negative id `-1` resolving (not skipped) to the last
of the three documents. -/
theorem C3_ranking_resolution_witness :
    ([ (⟨cexA2, q09, .str "x2"⟩ : RankedArticle)
     , ⟨cexA0, q08, .str "x0"⟩
     , ⟨cexA0, q06, .str "x0b"⟩ ].Pairwise
        (fun a b => b.relevance_score ≤ a.relevance_score)) ∧
    SearchAgent.rankEntryStep [cexA0, cexA1, cexA2]
      (mkRankedEntry 5 q07 "x5") = .ok none ∧
    SearchAgent.rankEntryStep [cexA0, cexA1, cexA2] cexEntryBadId =
      .error (.valueError "invalid literal for int") ∧
    SearchAgent.rankEntryStep [cexA0, cexA1, cexA2] cexEntryNegId =
      .ok (some ⟨cexA2, q07, .str "neg"⟩) := by
  refine ⟨?_, ?_, ?_, ?_⟩
  · exact C3_ranking_resolution.1 [cexA0, cexA1, cexA2] cexParsed3 _ rfl
  · exact C3_ranking_resolution.2.2.2.2.1 [cexA0, cexA1, cexA2]
      (mkRankedEntry 5 q07 "x5") (.num 5) 5 rfl rfl (by decide)
  · exact (C3_ranking_resolution.2.2.2.2.2.1 [cexA0, cexA1, cexA2]
      cexEntryBadId "abc" rfl rfl).1
  · have h2 : pyInt (Json.num qNeg1) = Except.ok (-1) := rfl
    have h4 : pyIndex [cexA0, cexA1, cexA2] (-1) = some cexA2 := rfl
    exact C3_ranking_resolution.2.2.2.2.2.2.2.1 [cexA0, cexA1, cexA2]
      cexEntryNegId (.num qNeg1) (-1) cexA2 (.num q07) q07 (.str "neg")
      rfl h2 (by decide) h4 rfl rfl rfl

theorem countP_set_phase {l : List FactCheckAgent.TaskPhase} {i : Nat}
    {old : FactCheckAgent.TaskPhase} (p : FactCheckAgent.TaskPhase → Bool)
    (h : l.get? i = some old) (a : FactCheckAgent.TaskPhase) :
    (l.set i a).countP p + (if p old then 1 else 0) =
      l.countP p + (if p a then 1 else 0) := by
  induction l generalizing i with
  | nil => simp at h
  | cons x xs ih =>
    cases i with
    | zero =>
      simp only [List.get?_cons_zero, Option.some.injEq] at h
      subst h
      simp [List.countP_cons]
      omega
    | succ m =>
      simp only [List.get?_cons_succ] at h
      have hm := ih h
      simp only [List.set_cons_succ, List.countP_cons]
      omega

theorem sem_invariant {n : Nat} {s : FactCheckAgent.SemaphoreState}
    (h : FactCheckAgent.SemReachable n s) :
    FactCheckAgent.runningCount s + s.avail = max_concurrent ∧
    s.tasks.length = n := by
  induction h with
  | init =>
    refine ⟨?_, by simp [FactCheckAgent.semInit]⟩
    have hz : ∀ m : Nat,
        (List.replicate m FactCheckAgent.TaskPhase.pending).countP
          (· == FactCheckAgent.TaskPhase.running) = 0 := by
      intro m
      rw [List.countP_eq_zero]
      intro a ha
      rw [List.eq_of_mem_replicate ha]
      decide
    simp [FactCheckAgent.runningCount, FactCheckAgent.semInit, hz]
  | step hr hstep ih =>
    cases hstep with
    | acquire tasks avail i hp ha =>
      have hc := countP_set_phase (· == FactCheckAgent.TaskPhase.running) hp
        FactCheckAgent.TaskPhase.running
      have e1 : (if ((FactCheckAgent.TaskPhase.pending ==
          FactCheckAgent.TaskPhase.running) = true) then 1 else 0) = 0 := rfl
      have e2 : (if ((FactCheckAgent.TaskPhase.running ==
          FactCheckAgent.TaskPhase.running) = true) then 1 else 0) = 1 := rfl
      rw [e1, e2] at hc
      obtain ⟨ih1, ih2⟩ := ih
      simp only [FactCheckAgent.runningCount] at ih1 hc ⊢
      constructor
      · omega
      · simp [ih2]
    | finish tasks avail i ok hrun =>
      have hc := countP_set_phase (· == FactCheckAgent.TaskPhase.running) hrun
        (FactCheckAgent.TaskPhase.done ok)
      have e1 : (if ((FactCheckAgent.TaskPhase.running ==
          FactCheckAgent.TaskPhase.running) = true) then 1 else 0) = 1 := rfl
      have e2 : (if ((FactCheckAgent.TaskPhase.done ok ==
          FactCheckAgent.TaskPhase.running) = true) then 1 else 0) = 0 := by
        cases ok <;> rfl
      rw [e1, e2] at hc
      obtain ⟨ih1, ih2⟩ := ih
      simp only [FactCheckAgent.runningCount] at ih1 hc ⊢
      constructor
      · omega
      · simp [ih2]

/-- C6: in every state reachable during a `FactCheckAgent.process` run over
`n` articles, at most `max_concurrent = 3` verification calls run
simultaneously; a slot is taken before a call starts and every completion
— successful or failed — returns its slot, so running calls plus free
slots is always exactly 3, and there is one task per input document. -/
theorem C6_concurrency_bound (n : Nat) (s : FactCheckAgent.SemaphoreState)
    (h : FactCheckAgent.SemReachable n s) :
    FactCheckAgent.runningCount s ≤ max_concurrent ∧
    FactCheckAgent.runningCount s + s.avail = max_concurrent ∧
    s.tasks.length = n := by
  obtain ⟨h1, h2⟩ := sem_invariant h
  exact ⟨by omega, h1, h2⟩

/-- A mid-run state over 5 documents: two calls in flight, one slot taken
twice. -/
def semWitnessState : FactCheckAgent.SemaphoreState :=
  ⟨[.running, .running, .pending, .pending, .pending], 1⟩

/-- C6 witness: a concrete reachable mid-run state (two acquisitions from
the initial state) satisfying the bound. -/
theorem C6_concurrency_bound_witness :
    FactCheckAgent.runningCount semWitnessState ≤ max_concurrent ∧
    FactCheckAgent.runningCount semWitnessState + semWitnessState.avail =
      max_concurrent ∧
    semWitnessState.tasks.length = 5 := by
  have r0 : FactCheckAgent.SemReachable 5 (FactCheckAgent.semInit 5) :=
    .init
  have s1 : FactCheckAgent.SemStep (FactCheckAgent.semInit 5)
      ⟨[.running, .pending, .pending, .pending, .pending], 2⟩ :=
    FactCheckAgent.SemStep.acquire (List.replicate 5 .pending) 3 0 rfl
      (by omega)
  have s2 : FactCheckAgent.SemStep
      ⟨[.running, .pending, .pending, .pending, .pending], 2⟩
      semWitnessState :=
    FactCheckAgent.SemStep.acquire
      [.running, .pending, .pending, .pending, .pending] 2 1 rfl (by omega)
  exact C6_concurrency_bound 5 semWitnessState ((r0.step s1).step s2)

theorem processFrom_length (decode : String → Option Json)
    (oracle : Nat → Except PyError String) :
    ∀ (as : List Article) (i : Nat),
      (FactCheckAgent.processFrom decode oracle i as).length = as.length := by
  intro as
  induction as with
  | nil => intro i; rfl
  | cons x rest ih =>
    intro i
    simp [FactCheckAgent.processFrom, ih (i + 1)]

theorem processFrom_get (decode : String → Option Json)
    (oracle : Nat → Except PyError String) :
    ∀ (as : List Article) (i k : Nat) (a : Article), as.get? k = some a →
      (FactCheckAgent.processFrom decode oracle i as).get? k =
        some (FactCheckAgent.process_article decode a (oracle (i + k))) := by
  intro as
  induction as with
  | nil => intro i k a h; simp at h
  | cons x rest ih =>
    intro i k a h
    cases k with
    | zero =>
      simp only [List.get?_cons_zero, Option.some.injEq] at h
      subst h
      simp [FactCheckAgent.processFrom]
    | succ m =>
      simp only [List.get?_cons_succ] at h
      have hm := ih (i + 1) m a h
      have harith : i + 1 + m = i + (m + 1) := by omega
      rw [harith] at hm
      simpa [FactCheckAgent.processFrom] using hm

theorem processFrom_map_article (decode : String → Option Json)
    (oracle : Nat → Except PyError String) :
    ∀ (as : List Article) (i : Nat),
      (FactCheckAgent.processFrom decode oracle i as).map
        FactCheckResult.article_data = as := by
  intro as
  induction as with
  | nil => intro i; rfl
  | cons x rest ih =>
    intro i
    have hx : (FactCheckAgent.process_article decode x
        (oracle i)).article_data = x := rfl
    simp [FactCheckAgent.processFrom, hx, ih (i + 1)]

/-- C7: `FactCheckAgent.process` returns exactly one result per input
document, each carrying its original document in `article_data`; a
per-document transport failure is replaced by the default verification —
all three credibility scores 0 and the summary "Verification failed" —
and the stage itself is a total function (it never raises). -/
theorem C7_verification_total (decode : String → Option Json)
    (oracle : Nat → Except PyError String) (articles : List Article) :
    (FactCheckAgent.process decode oracle articles).length =
      articles.length ∧
    (∀ k a, articles.get? k = some a →
      ((FactCheckAgent.process decode oracle articles).get? k).map
        FactCheckResult.article_data = some a) ∧
    (∀ (a : Article) (e : PyError),
      FactCheckAgent.process_article decode a (.error e) =
        { article_url := a.url
        , verification_results := FactCheckAgent.default_verification
        , article_data := a }) ∧
    pyGetItem FactCheckAgent.default_verification "credibility_assessment" =
      .ok (.obj
        [ ("source_credibility", .num 0)
        , ("evidence_quality", .num 0)
        , ("overall_reliability", .num 0) ]) ∧
    pyGetItem FactCheckAgent.default_verification "verification_summary" =
      .ok (.str "Verification failed") := by
  refine ⟨processFrom_length decode oracle articles 0,
    ?_, fun a e => rfl, rfl, rfl⟩
  intro k a h
  rw [FactCheckAgent.process, processFrom_get decode oracle articles 0 k a h]
  rfl

/-- C7 witness: two documents, all verification calls failing; both
results are present, in order, carrying their documents and the default
verification. -/
theorem C7_verification_total_witness :
    (FactCheckAgent.process (fun _ => some (Json.obj []))
      (fun _ => .error (.transportError "x")) [cexA0, cexA1]).length = 2 ∧
    ((FactCheckAgent.process (fun _ => some (Json.obj []))
      (fun _ => .error (.transportError "x")) [cexA0, cexA1]).get? 1).map
        FactCheckResult.article_data = some cexA1 ∧
    FactCheckAgent.process_article (fun _ => some (Json.obj [])) cexA0
        (.error (.transportError "x")) =
      { article_url := cexA0.url
      , verification_results := FactCheckAgent.default_verification
      , article_data := cexA0 } := by
  have h := C7_verification_total (fun _ => some (Json.obj []))
    (fun _ => .error (.transportError "x")) [cexA0, cexA1]
  exact ⟨h.1, h.2.1 1 cexA1 rfl, h.2.2.1 cexA0 (.transportError "x")⟩

/-- C10: `asyncio.gather` collects the per-document results in
task-creation order, and tasks are created in input order, so the result
list is positionally aligned with the input: mapping each result to its
`article_data` gives back exactly the input list, and the `k`-th result
carries the `k`-th input document. -/
theorem C10_gather_preserves_order (decode : String → Option Json)
    (oracle : Nat → Except PyError String) (articles : List Article) :
    (FactCheckAgent.process decode oracle articles).map
      FactCheckResult.article_data = articles ∧
    (∀ k a, articles.get? k = some a →
      ((FactCheckAgent.process decode oracle articles).get? k).map
        FactCheckResult.article_data = some a) := by
  refine ⟨processFrom_map_article decode oracle articles 0, ?_⟩
  intro k a h
  rw [FactCheckAgent.process, processFrom_get decode oracle articles 0 k a h]
  rfl

/-- C10 witness: a two-document run with a failure at index 0 still yields
`article_data` in input order. -/
theorem C10_gather_preserves_order_witness :
    (FactCheckAgent.process (fun _ => some (Json.obj []))
      (fun i => if i = 0 then .error (.transportError "x") else .ok "\x7b\x7d")
      [cexA0, cexA1]).map FactCheckResult.article_data = [cexA0, cexA1] ∧
    ((FactCheckAgent.process (fun _ => some (Json.obj []))
      (fun i => if i = 0 then .error (.transportError "x") else .ok "\x7b\x7d")
      [cexA0, cexA1]).get? 0).map FactCheckResult.article_data =
      some cexA0 := by
  have h := C10_gather_preserves_order (fun _ => some (Json.obj []))
    (fun i => if i = 0 then .error (.transportError "x") else .ok "\x7b\x7d")
    [cexA0, cexA1]
  exact ⟨h.1, h.2 0 cexA0 rfl⟩

/-- C9: the Synthesis (Report) Agent's `process` never raises — it either
returns the compiled report or, if its body raises, the fixed failure
skeleton, whose `detailed_analysis` is empty, whose `recommendations` are
empty and whose executive summary reads "Report generation failed"; and in
the recommendations sub-step, a parsed value that is not an array is
replaced by the empty array. -/
theorem C9_report_never_raises :
    (∀ (o : ReportAgent.Oracle) (data : Json) (e : PyError),
        ReportAgent.process_body o data = .error e →
        ReportAgent.process o data = ReportAgent.reportFailSkeleton) ∧
    (∀ (o : ReportAgent.Oracle) (data : Json),
        ReportAgent.process o data = ReportAgent.reportFailSkeleton ∨
        ∃ rep, ReportAgent.process_body o data = .ok rep ∧
          ReportAgent.process o data = rep) ∧
    (∀ (o : ReportAgent.Oracle) (report : Json) (resp : String) (j : Json),
        o.recsCall = .ok resp → o.decode resp = some j →
        (∀ xs, j ≠ .arr xs) →
        ReportAgent.generate_recommendations o report = .arr []) ∧
    pyGetItem ReportAgent.reportFailSkeleton "detailed_analysis" =
      .ok (.obj []) ∧
    pyGetItem ReportAgent.reportFailSkeleton "recommendations" =
      .ok (.arr []) ∧
    pyGetItem ReportAgent.reportFailSkeleton "executive_summary" =
      .ok (.obj
        [ ("main_findings", .str "Report generation failed")
        , ("key_trends", .arr [])
        , ("critical_insights", .arr [])
        , ("reliability_assessment", .str "") ]) := by
  refine ⟨?_, ?_, ?_, rfl, rfl, rfl⟩
  · intro o data e h
    unfold ReportAgent.process pyTry
    rw [h]
  · intro o data
    cases hb : ReportAgent.process_body o data with
    | error e =>
      left
      unfold ReportAgent.process pyTry
      rw [hb]
    | ok rep =>
      right
      refine ⟨rep, rfl, ?_⟩
      unfold ReportAgent.process pyTry
      rw [hb]
  · intro o report resp j hr hd hnarr
    unfold ReportAgent.generate_recommendations pyTry
    cases hes : pyDictGet report "executive_summary" (Json.obj []) with
    | error e =>
      simp [Bind.bind, Except.instMonad, Except.bind]
    | ok es =>
      cases hda : pyDictGet report "detailed_analysis" (Json.obj []) with
      | error e =>
        simp [Bind.bind, Except.instMonad, Except.bind]
      | ok da =>
        simp only [Bind.bind, Functor.map, Except.instMonad, Except.bind,
          Except.map, Except.pure, pure, hr, hd]

/-- An oracle whose recommendation decode yields a non-array. -/
def cexOracle9 : ReportAgent.Oracle :=
  ⟨.ok "e", .ok "d", .ok "r", fun _ => some (Json.num 1)⟩

/-- C9 witness: report data that is not a dict makes the body raise,
yielding the skeleton; a non-array recommendations parse yields `[]`. -/
theorem C9_report_never_raises_witness :
    ReportAgent.process cexOracle9 (Json.num 5) =
      ReportAgent.reportFailSkeleton ∧
    ReportAgent.generate_recommendations cexOracle9 (Json.obj []) =
      .arr [] := by
  refine ⟨C9_report_never_raises.1 cexOracle9 (Json.num 5)
    (.attributeError "object has no attribute get") rfl,
    C9_report_never_raises.2.2.1 cexOracle9 (Json.obj []) "r" (Json.num 1)
      rfl rfl (fun xs h => by cases h)⟩
